import Mathlib

/-!
Verification of the ASR metric computation and evaluation-loop orchestration
of the unified-ai-eval-platform backend.

The Go sources are shallowly embedded:
* `CalculateWER` / `CalculateCER` (metricscalculator/asr_metrics.go) become pure
  functions returning a rational value paired with an optional error string,
  mirroring Go's `(float64, error)` pair.  Float64 arithmetic is modelled by
  exact rational arithmetic.
* The word/rune Levenshtein distance computed by the vendored
  golang-levenshtein library with `InsCost = DelCost = SubCost = 1` is the
  unit-cost edit distance, embedded as Mathlib's `levenshtein` with
  `Levenshtein.defaultCost`.
* `strings.Fields` (split on runs of Unicode whitespace, dropping empty
  tokens) is embedded as `stringsFields` over the code-point list of a string.
-/

namespace AITestPlatform

/-- Go `unicode.IsSpace`: '\t', '\n', '\v', '\f', '\r', ' ', U+0085, U+00A0,
and the Unicode White_Space code points above Latin-1. -/
def isGoSpace (c : Char) : Bool :=
  let n := c.toNat
  n = 0x20 || (0x9 ≤ n && n ≤ 0xd) || n = 0x85 || n = 0xa0 ||
  n = 0x1680 || (0x2000 ≤ n && n ≤ 0x200a) ||
  n = 0x2028 || n = 0x2029 || n = 0x202f || n = 0x205f || n = 0x3000

/-- Helper for `stringsFields`: `acc` holds the current word, reversed. -/
def fieldsAux : List Char → List Char → List (List Char)
  | [], acc => if acc.isEmpty then [] else [acc.reverse]
  | c :: cs, acc =>
    if isGoSpace c then
      if acc.isEmpty then fieldsAux cs [] else acc.reverse :: fieldsAux cs []
    else
      fieldsAux cs (c :: acc)

/-- Go `strings.Fields`: split around runs of whitespace, discarding empty
tokens. -/
def stringsFields (s : List Char) : List (List Char) :=
  fieldsAux s []

/-- Unit-cost Levenshtein distance between two token lists, as computed by
`levenshtein.DistanceForMatrix` with `InsCost = DelCost = SubCost = 1` and
`Matches` being equality of tokens. -/
def goLevenshtein {α : Type} [DecidableEq α] (source target : List α) : ℕ :=
  levenshtein Levenshtein.defaultCost source target

/-- Error message built by `CalculateWER` when the ground truth is the empty
string. -/
def werEmptyMsg (nRecognized : ℕ) : String :=
  "ground truth is empty, cannot normalize WER (recognized: " ++
    toString nRecognized ++ " words, treated as 100% error)"

/-- Error message built by `CalculateWER` when the ground truth tokenizes to
zero words. -/
def werZeroWordsMsg (nRecognized : ℕ) : String :=
  "ground truth has 0 words after tokenization, cannot normalize WER (recognized: " ++
    toString nRecognized ++ " words, treated as 100% error)"

/-- Error message built by `CalculateCER` when the ground truth is the empty
string (the count is Go's `len`, i.e. the UTF-8 byte size). -/
def cerEmptyMsg (nRecognizedBytes : ℕ) : String :=
  "ground truth is empty, cannot normalize CER (recognized: " ++
    toString nRecognizedBytes ++ " chars, treated as 100% error)"

/-- Error message built by `CalculateCER` when the ground truth has zero
runes. -/
def cerZeroCharsMsg (nRecognized : ℕ) : String :=
  "ground truth has 0 characters after tokenization, cannot normalize CER (recognized: " ++
    toString nRecognized ++ " chars, treated as 100% error)"

/-- `CalculateWER` from metricscalculator/asr_metrics.go:
WER = (substitutions + insertions + deletions) / number of words in the
reference, over whitespace-delimited words. -/
def CalculateWER (groundTruth recognizedText : String) : ℚ × Option String :=
  if groundTruth = "" ∧ recognizedText = "" then
    (0, none)
  else if groundTruth = "" then
    if recognizedText = "" then
      (0, none)
    else
      (1, some (werEmptyMsg (stringsFields recognizedText.data).length))
  else
    let wordsGroundTruth := stringsFields groundTruth.data
    let wordsRecognized := stringsFields recognizedText.data
    let nGroundTruth := wordsGroundTruth.length
    if nGroundTruth = 0 then
      if wordsRecognized.length = 0 then
        (0, none)
      else
        (1, some (werZeroWordsMsg wordsRecognized.length))
    else
      let distance := goLevenshtein wordsGroundTruth wordsRecognized
      ((distance : ℚ) / (nGroundTruth : ℚ), none)

/-- `CalculateCER` from metricscalculator/asr_metrics.go:
CER = (substitutions + insertions + deletions) / number of runes in the
reference, over Unicode code points. -/
def CalculateCER (groundTruth recognizedText : String) : ℚ × Option String :=
  if groundTruth = "" ∧ recognizedText = "" then
    (0, none)
  else if groundTruth = "" then
    if recognizedText = "" then
      (0, none)
    else
      (1, some (cerEmptyMsg recognizedText.utf8ByteSize))
  else
    let runesGroundTruth := groundTruth.data
    let runesRecognized := recognizedText.data
    let nGroundTruth := runesGroundTruth.length
    if nGroundTruth = 0 then
      if runesRecognized.length = 0 then
        (0, none)
      else
        (1, some (cerZeroCharsMsg runesRecognized.length))
    else
      let distance := goLevenshtein runesGroundTruth runesRecognized
      ((distance : ℚ) / (nGroundTruth : ℚ), none)

/-- `CalculateLatency` from metricscalculator/asr_metrics.go. -/
def CalculateLatency (durationMs : ℤ) : ℤ :=
  durationMs

/-!
Embedding of the evaluation-loop orchestration
(evaluationengine/asr_eval_engine.go) and its datastore records.

Go's `sql.NullString` / `sql.NullFloat64` / `sql.NullInt64` become structures
with a payload and a validity bit; the Go zero value is `⟨0, false⟩`
(respectively `⟨"", false⟩`).  The external collaborators — the datastore
lookups, the adapter registry, the wall clock and the result sink — are
passed in an explicit environment `Env`; lookups return `none` where the Go
code receives a non-nil error.  `json.RawMessage` payloads are kept as plain
strings.  Fields of the records that the loop never reads or writes
(auto-generated ids, timestamps, tags) are omitted.
-/

/-- Go `sql.NullString`. -/
structure NullString where
  string : String
  valid : Bool
  deriving DecidableEq

/-- Go `sql.NullFloat64`, with the float modelled as a rational. -/
structure NullFloat64 where
  float64 : ℚ
  valid : Bool
  deriving DecidableEq

/-- Go `sql.NullInt64`. -/
structure NullInt64 where
  int64 : ℤ
  valid : Bool
  deriving DecidableEq

/-- datastore.ASRTestCase, restricted to the fields the evaluation loop
reads. -/
structure ASRTestCase where
  id : ℤ
  name : String
  languageCode : NullString
  audioFilePath : String
  groundTruthText : NullString
  deriving DecidableEq

/-- datastore.VendorConfig, restricted to the fields the evaluation loop and
the adapter registry read. -/
structure VendorConfig where
  id : ℤ
  name : String
  apiType : String
  deriving DecidableEq

/-- datastore.ASREvaluationResult, restricted to the fields the evaluation
loop writes. -/
structure ASREvaluationResult where
  jobID : ℤ
  asrTestCaseID : ℤ
  vendorConfigID : ℤ
  recognizedText : NullString
  cer : NullFloat64
  wer : NullFloat64
  ser : NullFloat64
  latencyMs : NullInt64
  rawVendorResponse : String
  deriving DecidableEq

/-- The shape of an adapter's `Recognize` method: audio file path, language
code and vendor config in (the always-empty parameter map is dropped),
`(recognizedText, rawResponse, err)` out. -/
def ASRAdapterFn : Type :=
  String → String → VendorConfig → String × String × Option String

/-- The external collaborators of `RunASREvaluation`: the database flag, the
two datastore lookups, the adapter registry, the measured wall-clock latency
of a recognition call (Go measures `time.Since`; here it is an oracle keyed
by test-case and vendor id), and the result sink.  A lookup returning `none`
and a sink returning `some e` correspond to a non-nil Go error. -/
structure Env where
  dbInitialized : Bool
  getASRTestCase : ℤ → Option ASRTestCase
  getVendorConfig : ℤ → Option VendorConfig
  getASRAdapter : VendorConfig → Option ASRAdapterFn
  latencyMs : ℤ → ℤ → ℤ
  createASREvaluationResult : ASREvaluationResult → Option String

/-- The CER/WER fields of the result row, mirroring the metric block of
`RunASREvaluation`: they are assigned only when ground truth is valid and
non-empty and recognition succeeded, and a metric whose computation reports
an error is left unset; in every other path the fields keep the Go zero
value `⟨0, false⟩`. -/
def computeMetrics (testCase : ASRTestCase) (recognizedText : String)
    (recErr : Option String) : NullFloat64 × NullFloat64 :=
  if testCase.groundTruthText.valid = true ∧ testCase.groundTruthText.string ≠ "" then
    if recErr = none then
      let gt := testCase.groundTruthText.string
      let cerR := CalculateCER gt recognizedText
      let werR := CalculateWER gt recognizedText
      (match cerR.2 with
        | some _ => ⟨0, false⟩
        | none => ⟨cerR.1, true⟩,
       match werR.2 with
        | some _ => ⟨0, false⟩
        | none => ⟨werR.1, true⟩)
    else
      (⟨0, false⟩, ⟨0, false⟩)
  else
    (⟨0, false⟩, ⟨0, false⟩)

/-- The result row built for one (test case, vendor) pair after the adapter
was obtained, mirroring the body of the inner loop of `RunASREvaluation`:
the recognition call, the latency measurement, the raw-response default, the
error placeholder in the recognized-text field, and the metric block. -/
def buildResult (env : Env) (jobID : ℤ) (testCase : ASRTestCase)
    (vendorConfig : VendorConfig) (adapter : ASRAdapterFn) : ASREvaluationResult :=
  let r3 := adapter testCase.audioFilePath testCase.languageCode.string vendorConfig
  let recognizedText := r3.1
  let rawResponse := r3.2.1
  let recErr := r3.2.2
  let m := computeMetrics testCase recognizedText recErr
  { jobID := jobID
    asrTestCaseID := testCase.id
    vendorConfigID := vendorConfig.id
    recognizedText :=
      match recErr with
      | some e => ⟨"Recognition Error: " ++ e, true⟩
      | none => ⟨recognizedText, true⟩
    cer := m.1
    wer := m.2
    ser := ⟨0, false⟩
    latencyMs := ⟨env.latencyMs testCase.id vendorConfig.id, true⟩
    rawVendorResponse := if rawResponse ≠ "" then rawResponse else "null" }

/-- One inner-loop iteration of `RunASREvaluation` for a resolved test case
and one vendor id: vendor lookup, adapter lookup and persistence failures
each skip the pair; otherwise exactly the built row is persisted. -/
def processPair (env : Env) (jobID : ℤ) (testCase : ASRTestCase)
    (vendorConfigID : ℤ) : List ASREvaluationResult :=
  match env.getVendorConfig vendorConfigID with
  | none => []
  | some vendorConfig =>
    match env.getASRAdapter vendorConfig with
    | none => []
    | some adapter =>
      let result := buildResult env jobID testCase vendorConfig adapter
      match env.createASREvaluationResult result with
      | some _ => []
      | none => [result]

/-- One outer-loop iteration of `RunASREvaluation`: a failed test-case
lookup skips the whole vendor row, otherwise the inner loop runs over all
vendor ids in order. -/
def processTestCase (env : Env) (jobID : ℤ) (vendorConfigIDs : List ℤ)
    (testCaseID : ℤ) : List ASREvaluationResult :=
  match env.getASRTestCase testCaseID with
  | none => []
  | some testCase => vendorConfigIDs.flatMap (processPair env jobID testCase)

/-- `RunASREvaluation` from evaluationengine/asr_eval_engine.go.  It returns
the list of persisted result rows (in loop order) together with the
function's error return: non-nil only when the database connection is not
initialized, which is checked before the loop. -/
def RunASREvaluation (env : Env) (jobID : ℤ)
    (testCaseIDs vendorConfigIDs : List ℤ) :
    List ASREvaluationResult × Option String :=
  if env.dbInitialized then
    (testCaseIDs.flatMap (processTestCase env jobID vendorConfigIDs), none)
  else
    ([], some "database connection is not initialized")

/-- Job lifecycle states from jobmanagement (JobStatusPending etc.). -/
inductive JobStatus
  | pending
  | running
  | completed
  | failed
  deriving DecidableEq

/-- Outcomes of the job-store calls made by `CreateAndRunASRJob` before the
evaluation loop: job-row creation, the status update to RUNNING, and the
started-at timestamp update (`some e` is a non-nil Go error).  The
marshalling of the int-slice arguments and the post-loop store updates,
whose failures are only logged, are not modelled. -/
structure JobEnv where
  jobID : ℤ
  createEvaluationJobErr : Option String
  updateStatusRunningErr : Option String
  updateStartedAtErr : Option String

/-- `CreateAndRunASRJob` from the jobmanagement service, reduced to the
status bookkeeping: it returns the job status the handler records on the job
object (`none` when job creation failed and no job is returned) together
with the handler's error return. -/
def CreateAndRunASRJob (jenv : JobEnv) (env : Env)
    (testCaseIDs vendorConfigIDs : List ℤ) : Option JobStatus × Option String :=
  match jenv.createEvaluationJobErr with
  | some e => (none, some ("failed to create evaluation job in datastore: " ++ e))
  | none =>
    match jenv.updateStatusRunningErr with
    | some e => (some JobStatus.failed, some ("failed to update job status to RUNNING: " ++ e))
    | none =>
      match jenv.updateStartedAtErr with
      | some e => (some JobStatus.failed, some ("failed to update job started_at: " ++ e))
      | none =>
        match (RunASREvaluation env jenv.jobID testCaseIDs vendorConfigIDs).2 with
        | some e => (some JobStatus.failed, some e)
        | none => (some JobStatus.completed, none)

/-!
Embedding of the adapter registry (vendoradapters.GetASRAdapter) and of
MockASRAdapter.Recognize.
-/

/-- Which adapter implementation the registry hands out. -/
inductive ASRAdapterKind
  | mock
  | google
  | microsoft
  | deepgram
  | tencent
  | volcengine
  | alibaba
  deriving DecidableEq

/-- The vendor names with a dedicated case in the registry's switch. -/
def knownVendorNames : List String :=
  ["MockASR", "MockASR-Error", "GoogleCloudASR", "MicrosoftASR", "DeepgramASR",
   "TencentASR", "VolcengineASR", "AlibabaASR"]

/-- `GetASRAdapter` from the vendoradapters registry: a string switch on the
vendor configuration's Name field.  `objectStoreInitialized` models whether
the package-global object-store client is non-nil; a `none` first component
with a `some` second corresponds to Go's `(nil, err)`. -/
def GetASRAdapter (objectStoreInitialized : Bool)
    (vendorConfig : Option VendorConfig) : Option ASRAdapterKind × Option String :=
  match vendorConfig with
  | none => (none, some "vendorConfig cannot be nil")
  | some vc =>
    if vc.name = "MockASR" then (some ASRAdapterKind.mock, none)
    else if vc.name = "MockASR-Error" then (some ASRAdapterKind.mock, none)
    else if vc.name = "GoogleCloudASR" then
      if objectStoreInitialized then (some ASRAdapterKind.google, none)
      else (none, some "GoogleASRAdapter requires an initialized object store client, but it\x27s nil")
    else if vc.name = "MicrosoftASR" then
      if objectStoreInitialized then (some ASRAdapterKind.microsoft, none)
      else (none, some "MicrosoftASRAdapter requires an initialized object store client, but it\x27s nil")
    else if vc.name = "DeepgramASR" then
      if objectStoreInitialized then (some ASRAdapterKind.deepgram, none)
      else (none, some "DeepgramASRAdapter requires an initialized object store client, but it\x27s nil")
    else if vc.name = "TencentASR" then
      if objectStoreInitialized then (some ASRAdapterKind.tencent, none)
      else (none, some "TencentASRAdapter requires an initialized object store client, but it\x27s nil")
    else if vc.name = "VolcengineASR" then
      if objectStoreInitialized then (some ASRAdapterKind.volcengine, none)
      else (none, some "VolcengineASRAdapter requires an initialized object store client, but it\x27s nil")
    else if vc.name = "AlibabaASR" then
      if objectStoreInitialized then (some ASRAdapterKind.alibaba, none)
      else (none, some "AlibabaASRAdapter requires an initialized object store client, but it\x27s nil")
    else (some ASRAdapterKind.mock, none)

/-- `MockASRAdapter.Recognize` from microsoft_asr_adapter.go: fabricates a
transcript, except for the vendor name "MockASR-Error" which simulates a
failed call (the 500 ms simulated latency sleep is not modelled). -/
def MockASRAdapterRecognize (audioFilePath languageCode : String)
    (vendorConfig : VendorConfig) : String × String × Option String :=
  let mockText := "Mock recognition for " ++ audioFilePath ++
    ": Hello world, this is a test for language " ++ languageCode ++ "."
  if vendorConfig.name = "MockASR-Error" then
    ("", "\x7b\"error\": \"Simulated error from MockASR-Error vendor\"\x7d",
      some ("simulated error from MockASR-Error for file " ++ audioFilePath))
  else
    (mockText,
      "\x7b\"transcription\": \"" ++ mockText ++ "\", \"confidence\": 0.95, \"simulated\": true\x7d",
      none)

/-!
Concrete sample data used to instantiate the theorems below on closed
inputs.
-/

/-- An adapter that always succeeds with a fixed transcript. -/
def sampleAdapter : ASRAdapterFn :=
  fun _ _ _ => ("the hat sat", "\x7b\"ok\": true\x7d", none)

/-- An adapter that always fails. -/
def errorAdapter : ASRAdapterFn :=
  fun _ _ _ => ("", "", some "simulated recognition failure")

/-- A test case with ground truth "the cat sat". -/
def tcCat : ASRTestCase :=
  ⟨1, "cat", ⟨"en-US", true⟩, "audio/cat.wav", ⟨"the cat sat", true⟩⟩

/-- A copy of `tcCat` under id 3. -/
def tcCat3 : ASRTestCase :=
  ⟨3, "cat3", ⟨"en-US", true⟩, "audio/cat3.wav", ⟨"the cat sat", true⟩⟩

/-- A test case without ground truth. -/
def tcNoGT : ASRTestCase :=
  ⟨2, "nogt", ⟨"en-US", true⟩, "audio/nogt.wav", ⟨"", false⟩⟩

/-- A test case whose ground truth is a single space: non-empty but
tokenizing to zero words. -/
def tcWS : ASRTestCase :=
  ⟨3, "ws", ⟨"en-US", true⟩, "audio/ws.wav", ⟨" ", true⟩⟩

/-- A mock vendor configuration. -/
def vcMock : VendorConfig := ⟨1, "MockASR", "ASR"⟩

/-- A second mock vendor configuration, under id 2. -/
def vcMock2 : VendorConfig := ⟨2, "MockASR", "ASR"⟩

/-- A vendor configuration whose name matches no registry case. -/
def vcOther : VendorConfig := ⟨2, "SomeNewVendor", "ASR"⟩

/-- An environment over explicit test-case and vendor tables, with every
adapter lookup resolving to `adapter` and an always-succeeding result
sink. -/
def mkEnv (tcs : List ASRTestCase) (vcs : List VendorConfig)
    (adapter : ASRAdapterFn) : Env :=
  { dbInitialized := true
    getASRTestCase := fun i => tcs.find? (fun t => t.id == i)
    getVendorConfig := fun i => vcs.find? (fun v => v.id == i)
    getASRAdapter := fun _ => some adapter
    latencyMs := fun _ _ => 5
    createASREvaluationResult := fun _ => none }

/-!
Helper lemmas.
-/

/-- A string is empty iff its code-point list is empty. -/
theorem string_eq_empty_iff {s : String} : s = "" ↔ s.data = [] := by
  rw [String.ext_iff]

/-- The unit-cost edit distance of a list to itself is zero. -/
theorem goLevenshtein_self {α : Type} [DecidableEq α] (xs : List α) :
    goLevenshtein xs xs = 0 := by
  induction xs with
  | nil => simp [goLevenshtein]
  | cons x xs ih =>
    unfold goLevenshtein at ih ⊢
    have hle : levenshtein Levenshtein.defaultCost (x :: xs) (x :: xs) ≤ 0 := by
      rw [levenshtein_cons_cons]
      refine le_trans (min_le_right _ _) (le_trans (min_le_right _ _) ?_)
      simp [ih]
    omega

/-- On a reference with at least one code point, `CalculateCER` returns the
normalized edit distance with a nil error. -/
theorem calculateCER_pos (gt rec : String) (h : gt ≠ "") :
    CalculateCER gt rec =
      ((goLevenshtein gt.data rec.data : ℚ) / (gt.data.length : ℚ), none) := by
  have hd : gt.data ≠ [] := fun hd => h (string_eq_empty_iff.mpr hd)
  have hlen : gt.length ≠ 0 := fun h0 => hd (List.length_eq_zero.mp h0)
  simp [CalculateCER, h, hlen]

/-- On a reference with at least one word, `CalculateWER` returns the
normalized edit distance over words with a nil error. -/
theorem calculateWER_pos (gt rec : String) (h : stringsFields gt.data ≠ []) :
    CalculateWER gt rec =
      ((goLevenshtein (stringsFields gt.data) (stringsFields rec.data) : ℚ) /
        ((stringsFields gt.data).length : ℚ), none) := by
  have hgt : gt ≠ "" := by
    intro e
    subst e
    exact h rfl
  have hlen : (stringsFields gt.data).length ≠ 0 := by
    simpa [List.length_eq_zero] using h
  simp [CalculateWER, hgt, hlen]

/-!
Claim theorems.
-/

/-- Claim C1: for a reference with at least one token, `CalculateCER` returns
with nil error the unit-cost Levenshtein distance over code points divided by
the reference's code-point count, and `CalculateWER` the same over
whitespace-delimited words divided by the reference's word count; the value
is not clamped: WER("a", "a a a a a a") = 5.0, WER("the cat sat",
"the hat sat") = 1/3 and CER on the same pair = 1/11. -/
theorem claimC1 :
    (∀ ref hyp : String, ref ≠ "" →
      CalculateCER ref hyp =
        ((goLevenshtein ref.data hyp.data : ℚ) / (ref.data.length : ℚ), none)) ∧
    (∀ ref hyp : String, stringsFields ref.data ≠ [] →
      CalculateWER ref hyp =
        ((goLevenshtein (stringsFields ref.data) (stringsFields hyp.data) : ℚ) /
          ((stringsFields ref.data).length : ℚ), none)) ∧
    CalculateWER "a" "a a a a a a" = (5, none) ∧
    CalculateWER "the cat sat" "the hat sat" = (1/3, none) ∧
    CalculateCER "the cat sat" "the hat sat" = (1/11, none) := by
  refine ⟨fun ref hyp h => calculateCER_pos ref hyp h,
          fun ref hyp h => calculateWER_pos ref hyp h, ?_, ?_, ?_⟩
  · rw [calculateWER_pos _ _ (by decide),
      show goLevenshtein (stringsFields ("a" : String).data)
          (stringsFields ("a a a a a a" : String).data) = 5 from by decide,
      show (stringsFields ("a" : String).data).length = 1 from by decide]
    norm_num [Prod.ext_iff]
  · rw [calculateWER_pos _ _ (by decide),
      show goLevenshtein (stringsFields ("the cat sat" : String).data)
          (stringsFields ("the hat sat" : String).data) = 1 from by decide,
      show (stringsFields ("the cat sat" : String).data).length = 3 from by decide]
    norm_num [Prod.ext_iff]
  · rw [calculateCER_pos _ _ (by decide),
      show goLevenshtein ("the cat sat" : String).data ("the hat sat" : String).data = 1
        from by decide,
      show ("the cat sat" : String).data.length = 11 from by decide]
    norm_num [Prod.ext_iff]

/-- Witness for C1 at concrete inputs. -/
theorem claimC1_witness :
    ("ab" : String) ≠ "" ∧
    CalculateCER "ab" "abc" =
      ((goLevenshtein ("ab" : String).data ("abc" : String).data : ℚ) /
        (("ab" : String).data.length : ℚ), none) ∧
    stringsFields ("a b" : String).data ≠ [] ∧
    CalculateWER "a b" "a c" =
      ((goLevenshtein (stringsFields ("a b" : String).data)
          (stringsFields ("a c" : String).data) : ℚ) /
        ((stringsFields ("a b" : String).data).length : ℚ), none) :=
  ⟨by decide, claimC1.1 "ab" "abc" (by decide), by decide,
   claimC1.2.1 "a b" "a c" (by decide)⟩

/-- Claim C4: for both metrics, both inputs empty yields exactly (0.0, nil
error); an empty reference with a non-empty hypothesis yields a non-nil
error whose numeric payload is 1.0, never a silent 0 and never a throw. -/
theorem claimC4 :
    CalculateCER "" "" = (0, none) ∧ CalculateWER "" "" = (0, none) ∧
    (∀ hyp : String, hyp ≠ "" →
      (CalculateCER "" hyp).1 = 1 ∧ (CalculateCER "" hyp).2.isSome = true ∧
      (CalculateWER "" hyp).1 = 1 ∧ (CalculateWER "" hyp).2.isSome = true) := by
  refine ⟨by decide, by decide, fun hyp h => ?_⟩
  refine ⟨?_, ?_, ?_, ?_⟩ <;> simp [CalculateCER, CalculateWER, h]

/-- Witness for C4 at the concrete hypothesis "x". -/
theorem claimC4_witness :
    ("x" : String) ≠ "" ∧
    (CalculateCER "" "x").1 = 1 ∧ (CalculateCER "" "x").2.isSome = true ∧
    (CalculateWER "" "x").1 = 1 ∧ (CalculateWER "" "x").2.isSome = true :=
  ⟨by decide, claimC4.2.2 "x" (by decide)⟩

/-- Claim C9: for every non-empty string s, CalculateCER(s, s) and
CalculateWER(s, s) both return 0.0 with a nil error. -/
theorem claimC9 (s : String) (h : s ≠ "") :
    CalculateCER s s = (0, none) ∧ CalculateWER s s = (0, none) := by
  constructor
  · rw [calculateCER_pos s s h, goLevenshtein_self]
    norm_num [Prod.ext_iff]
  · by_cases hw : stringsFields s.data = []
    · simp [CalculateWER, h, hw]
    · rw [calculateWER_pos s s hw, goLevenshtein_self]
      norm_num [Prod.ext_iff]

/-- Witness for C9 at s = "ab". -/
theorem claimC9_witness :
    ("ab" : String) ≠ "" ∧
    CalculateCER "ab" "ab" = (0, none) ∧ CalculateWER "ab" "ab" = (0, none) :=
  ⟨by decide, (claimC9 "ab" (by decide)).1, (claimC9 "ab" (by decide)).2⟩

/-- Claim C10: a non-empty ground truth consisting only of whitespace
(tokenizing to zero words) makes `CalculateWER` return (1.0, non-nil error)
when the recognized text has at least one word, and (0.0, nil error) when
the recognized text also tokenizes to zero words. -/
theorem claimC10 (gt rec : String) (hne : gt ≠ "")
    (hz : stringsFields gt.data = []) (hr : stringsFields rec.data ≠ []) :
    (CalculateWER gt rec).1 = 1 ∧
    (CalculateWER gt rec).2 =
      some (werZeroWordsMsg (stringsFields rec.data).length) ∧
    (∀ rec2 : String, stringsFields rec2.data = [] →
      CalculateWER gt rec2 = (0, none)) := by
  have hrlen : (stringsFields rec.data).length ≠ 0 := by
    simpa [List.length_eq_zero] using hr
  refine ⟨?_, ?_, fun rec2 h2 => ?_⟩
  · simp [CalculateWER, hne, hz, hrlen]
  · simp [CalculateWER, hne, hz, hrlen]
  · simp [CalculateWER, hne, hz, h2]

/-- Witness for C10 with ground truth " " against "x" and against " ". -/
theorem claimC10_witness :
    (" " : String) ≠ "" ∧ stringsFields (" " : String).data = [] ∧
    stringsFields ("x" : String).data ≠ [] ∧
    (CalculateWER " " "x").1 = 1 ∧
    (CalculateWER " " "x").2 =
      some (werZeroWordsMsg (stringsFields ("x" : String).data).length) ∧
    CalculateWER " " " " = (0, none) := by
  have h := claimC10 " " "x" (by decide) (by decide) (by decide)
  exact ⟨by decide, by decide, by decide, h.1, h.2.1, h.2.2 " " (by decide)⟩

/-- A successful keyed `find?` returns an element with the requested key. -/
theorem find?_key_eq {α : Type} (f : α → ℤ) {l : List α} {i : ℤ} {x : α}
    (h : l.find? (fun t => f t == i) = some x) : f x = i := by
  have := List.find?_some h
  simpa using this

/-- The (test case id, vendor id) pairs emitted by one inner-loop iteration:
one pair when the vendor resolves, none when it does not. -/
theorem processPair_pairs (env : Env) (jobID : ℤ) (tc : ASRTestCase) (v : ℤ)
    (hadapter : ∀ vc, (env.getASRAdapter vc).isSome = true)
    (hpersist : ∀ r, env.createASREvaluationResult r = none)
    (hvc : ∀ i vc, env.getVendorConfig i = some vc → vc.id = i) :
    (processPair env jobID tc v).map (fun r => (r.asrTestCaseID, r.vendorConfigID)) =
      if (env.getVendorConfig v).isSome = true then [(tc.id, v)] else [] := by
  unfold processPair
  cases hv : env.getVendorConfig v with
  | none => simp
  | some vc =>
    cases ha : env.getASRAdapter vc with
    | none =>
      have := hadapter vc
      rw [ha] at this
      simp at this
    | some a =>
      simp [ha, hpersist, buildResult, hvc v vc hv]

/-- The (test case id, vendor id) pairs emitted by one outer-loop iteration:
the full vendor row when the test case resolves, none when it does not. -/
theorem processTestCase_pairs (env : Env) (jobID : ℤ) (vs : List ℤ) (t : ℤ)
    (hadapter : ∀ vc, (env.getASRAdapter vc).isSome = true)
    (hpersist : ∀ r, env.createASREvaluationResult r = none)
    (htc : ∀ i tc, env.getASRTestCase i = some tc → tc.id = i)
    (hvc : ∀ i vc, env.getVendorConfig i = some vc → vc.id = i) :
    (processTestCase env jobID vs t).map (fun r => (r.asrTestCaseID, r.vendorConfigID)) =
      if (env.getASRTestCase t).isSome = true then
        (vs.filter (fun v => (env.getVendorConfig v).isSome)).map (fun v => (t, v))
      else [] := by
  unfold processTestCase
  cases ht : env.getASRTestCase t with
  | none => simp
  | some tc =>
    have hid : tc.id = t := htc t tc ht
    simp only [Option.isSome_some, if_true]
    induction vs with
    | nil => simp
    | cons v vs' ih =>
      rw [List.flatMap_cons, List.map_append,
        processPair_pairs env jobID tc v hadapter hpersist hvc, List.filter_cons]
      cases hv : (env.getVendorConfig v).isSome with
      | true => simp [hv, hid, ih]
      | false => simp [hv, ih]

/-- Claim C2: per job run, with an adapter for every vendor and a succeeding
result sink, exactly one result row is persisted per (test case, vendor)
pair whose two lookups succeed — regardless of the recognition outcome; a
test case that fails lookup contributes no row for any vendor, and a vendor
that fails lookup is skipped for that pair only. -/
theorem claimC2 (env : Env) (jobID : ℤ) (tcs vs : List ℤ)
    (hdb : env.dbInitialized = true)
    (hadapter : ∀ vc, (env.getASRAdapter vc).isSome = true)
    (hpersist : ∀ r, env.createASREvaluationResult r = none)
    (htc : ∀ i tc, env.getASRTestCase i = some tc → tc.id = i)
    (hvc : ∀ i vc, env.getVendorConfig i = some vc → vc.id = i) :
    (RunASREvaluation env jobID tcs vs).1.map
        (fun r => (r.asrTestCaseID, r.vendorConfigID)) =
      (tcs.filter (fun t => (env.getASRTestCase t).isSome)).flatMap
        (fun t => (vs.filter (fun v => (env.getVendorConfig v).isSome)).map
          (fun v => (t, v))) := by
  have h1 : (RunASREvaluation env jobID tcs vs).1 =
      tcs.flatMap (processTestCase env jobID vs) := by
    simp [RunASREvaluation, hdb]
  rw [h1]
  clear h1
  induction tcs with
  | nil => simp
  | cons t ts ih =>
    rw [List.flatMap_cons, List.map_append,
      processTestCase_pairs env jobID vs t hadapter hpersist htc hvc,
      List.filter_cons]
    cases ht : (env.getASRTestCase t).isSome with
    | true => simp [ht, ih]
    | false => simp [ht, ih]

/-- Witness for C2: three test-case ids whose middle one fails lookup, run
against two vendors, emit exactly the four pairs of the first and third test
cases. -/
theorem claimC2_witness :
    (RunASREvaluation (mkEnv [tcCat, tcCat3] [vcMock, vcMock2] sampleAdapter)
          7 [1, 2, 3] [1, 2]).1.map
        (fun r => (r.asrTestCaseID, r.vendorConfigID)) =
      (([1, 2, 3] : List ℤ).filter (fun t =>
          ((mkEnv [tcCat, tcCat3] [vcMock, vcMock2] sampleAdapter).getASRTestCase t).isSome)).flatMap
        (fun t => (([1, 2] : List ℤ).filter (fun v =>
            ((mkEnv [tcCat, tcCat3] [vcMock, vcMock2] sampleAdapter).getVendorConfig v).isSome)).map
          (fun v => (t, v))) :=
  claimC2 (mkEnv [tcCat, tcCat3] [vcMock, vcMock2] sampleAdapter) 7 [1, 2, 3] [1, 2]
    rfl (fun _ => rfl) (fun _ => rfl)
    (fun _ _ h => find?_key_eq (fun t : ASRTestCase => t.id) h)
    (fun _ _ h => find?_key_eq (fun v : VendorConfig => v.id) h)

/-- Claim C3: a persisted result for a pair whose ground truth is absent or
empty, or whose recognition call failed, has CER and WER unset; SER is unset
in every persisted result. -/
theorem claimC3 :
    (∀ (env : Env) (jobID : ℤ) (tcs vs : List ℤ) (r : ASREvaluationResult),
      r ∈ (RunASREvaluation env jobID tcs vs).1 → r.ser.valid = false) ∧
    (∀ (env : Env) (jobID : ℤ) (tc : ASRTestCase) (vc : VendorConfig)
        (a : ASRAdapterFn),
      (¬(tc.groundTruthText.valid = true ∧ tc.groundTruthText.string ≠ "") ∨
        (a tc.audioFilePath tc.languageCode.string vc).2.2 ≠ none) →
      (buildResult env jobID tc vc a).cer.valid = false ∧
      (buildResult env jobID tc vc a).wer.valid = false) := by
  constructor
  · intro env jobID tcs vs r hr
    unfold RunASREvaluation at hr
    by_cases hdb : env.dbInitialized
    · rw [if_pos hdb] at hr
      simp only [List.mem_flatMap] at hr
      obtain ⟨t, -, hr⟩ := hr
      unfold processTestCase at hr
      cases ht : env.getASRTestCase t with
      | none => simp [ht] at hr
      | some tc =>
        simp only [ht, List.mem_flatMap] at hr
        obtain ⟨v, -, hr⟩ := hr
        unfold processPair at hr
        cases hv : env.getVendorConfig v with
        | none => simp [hv] at hr
        | some vc =>
          simp only [hv] at hr
          cases ha : env.getASRAdapter vc with
          | none => simp [ha] at hr
          | some a =>
            simp only [ha] at hr
            cases hc : env.createASREvaluationResult (buildResult env jobID tc vc a) with
            | some e => simp [hc] at hr
            | none =>
              simp only [hc, List.mem_singleton] at hr
              subst hr
              rfl
    · rw [if_neg hdb] at hr
      simp at hr
  · intro env jobID tc vc a h
    rcases h with h | h
    · constructor <;> simp [buildResult, computeMetrics, h]
    · by_cases hg : tc.groundTruthText.valid = true ∧ tc.groundTruthText.string ≠ ""
      · constructor <;> simp [buildResult, computeMetrics, hg, h]
      · constructor <;> simp [buildResult, computeMetrics, hg]

/-- Witness for C3: a persisted row for a test case without ground truth has
SER unset and CER/WER unset. -/
theorem claimC3_witness :
    buildResult (mkEnv [tcNoGT] [vcMock] sampleAdapter) 7 tcNoGT vcMock sampleAdapter ∈
        (RunASREvaluation (mkEnv [tcNoGT] [vcMock] sampleAdapter) 7 [2] [1]).1 ∧
    (buildResult (mkEnv [tcNoGT] [vcMock] sampleAdapter) 7 tcNoGT vcMock
        sampleAdapter).ser.valid = false ∧
    (¬(tcNoGT.groundTruthText.valid = true ∧ tcNoGT.groundTruthText.string ≠ "") ∨
      (sampleAdapter tcNoGT.audioFilePath tcNoGT.languageCode.string vcMock).2.2 ≠ none) ∧
    (buildResult (mkEnv [tcNoGT] [vcMock] sampleAdapter) 7 tcNoGT vcMock
        sampleAdapter).cer.valid = false ∧
    (buildResult (mkEnv [tcNoGT] [vcMock] sampleAdapter) 7 tcNoGT vcMock
        sampleAdapter).wer.valid = false := by
  have hmem : buildResult (mkEnv [tcNoGT] [vcMock] sampleAdapter) 7 tcNoGT vcMock
      sampleAdapter ∈ (RunASREvaluation (mkEnv [tcNoGT] [vcMock] sampleAdapter) 7 [2] [1]).1 := by
    decide
  have hcond : ¬(tcNoGT.groundTruthText.valid = true ∧ tcNoGT.groundTruthText.string ≠ "") ∨
      (sampleAdapter tcNoGT.audioFilePath tcNoGT.languageCode.string vcMock).2.2 ≠ none :=
    Or.inl (by decide)
  have h2 := claimC3.2 (mkEnv [tcNoGT] [vcMock] sampleAdapter) 7 tcNoGT vcMock
    sampleAdapter hcond
  exact ⟨hmem, claimC3.1 (mkEnv [tcNoGT] [vcMock] sampleAdapter) 7 [2] [1] _ hmem,
    hcond, h2.1, h2.2⟩

/-- Claim C5: `RunASREvaluation` returns without error whenever the double
loop runs, irrespective of per-pair failures, and the job is then marked
COMPLETED; it returns an error (job marked FAILED) only when the
orchestration fails before the loop, such as an uninitialized database
connection. -/
theorem claimC5 :
    (∀ (env : Env) (jobID : ℤ) (tcs vs : List ℤ), env.dbInitialized = true →
      (RunASREvaluation env jobID tcs vs).2 = none) ∧
    (∀ (jenv : JobEnv) (env : Env) (tcs vs : List ℤ),
      jenv.createEvaluationJobErr = none → jenv.updateStatusRunningErr = none →
      jenv.updateStartedAtErr = none → env.dbInitialized = true →
      CreateAndRunASRJob jenv env tcs vs = (some JobStatus.completed, none)) ∧
    (∀ (jenv : JobEnv) (env : Env) (tcs vs : List ℤ),
      jenv.createEvaluationJobErr = none → jenv.updateStatusRunningErr = none →
      jenv.updateStartedAtErr = none → env.dbInitialized = false →
      CreateAndRunASRJob jenv env tcs vs =
        (some JobStatus.failed, some "database connection is not initialized")) :=
  ⟨fun env jobID tcs vs h => by simp [RunASREvaluation, h],
   fun jenv env tcs vs h1 h2 h3 h4 => by
    simp [CreateAndRunASRJob, RunASREvaluation, h1, h2, h3, h4],
   fun jenv env tcs vs h1 h2 h3 h4 => by
    simp [CreateAndRunASRJob, RunASREvaluation, h1, h2, h3, h4]⟩

/-- A job-store environment whose pre-loop calls all succeed. -/
def jenvOK : JobEnv := ⟨7, none, none, none⟩

/-- An engine environment with empty tables and an initialized database. -/
def envEmpty : Env := mkEnv [] [] sampleAdapter

/-- `envEmpty` with the database connection uninitialized. -/
def envNoDB : Env := { envEmpty with dbInitialized := false }

/-- Witness for C5 on concrete environments. -/
theorem claimC5_witness :
    jenvOK.createEvaluationJobErr = none ∧ jenvOK.updateStatusRunningErr = none ∧
    jenvOK.updateStartedAtErr = none ∧ envEmpty.dbInitialized = true ∧
    CreateAndRunASRJob jenvOK envEmpty [1] [1] = (some JobStatus.completed, none) ∧
    envNoDB.dbInitialized = false ∧
    CreateAndRunASRJob jenvOK envNoDB [1] [1] =
      (some JobStatus.failed, some "database connection is not initialized") :=
  ⟨rfl, rfl, rfl, rfl, claimC5.2.1 jenvOK envEmpty [1] [1] rfl rfl rfl rfl, rfl,
   claimC5.2.2 jenvOK envNoDB [1] [1] rfl rfl rfl rfl⟩

/-- Appending to a non-empty string yields a non-empty string. -/
theorem string_append_ne_empty (s t : String) (hs : s.data ≠ []) : s ++ t ≠ "" := by
  intro h
  have hd := congrArg String.data h
  rw [String.data_append] at hd
  exact hs (List.append_eq_nil.mp hd).1

/-- Appending preserves non-emptiness of the code-point list. -/
theorem string_append_data_ne_empty_left (s t : String) (hs : s.data ≠ []) :
    (s ++ t).data ≠ [] := by
  rw [String.data_append]
  intro h
  exact hs (List.append_eq_nil.mp h).1

/-- Claim C6: when the recognition call errors, the runner still builds and
persists the pair's row, putting the error-describing placeholder
"Recognition Error: " followed by the error message — distinct from the
empty string — into the hypothesis-text field, with CER and WER unset. -/
theorem claimC6 (env : Env) (jobID : ℤ) (tc : ASRTestCase) (vID : ℤ)
    (vc : VendorConfig) (a : ASRAdapterFn) (e : String)
    (hv : env.getVendorConfig vID = some vc)
    (ha : env.getASRAdapter vc = some a)
    (he : (a tc.audioFilePath tc.languageCode.string vc).2.2 = some e)
    (hp : ∀ r, env.createASREvaluationResult r = none) :
    processPair env jobID tc vID = [buildResult env jobID tc vc a] ∧
    (buildResult env jobID tc vc a).recognizedText =
      ⟨"Recognition Error: " ++ e, true⟩ ∧
    ("Recognition Error: " ++ e) ≠ "" ∧
    (buildResult env jobID tc vc a).cer.valid = false ∧
    (buildResult env jobID tc vc a).wer.valid = false := by
  refine ⟨?_, ?_, string_append_ne_empty _ _ (by decide), ?_, ?_⟩
  · simp [processPair, hv, ha, hp]
  · simp [buildResult, he]
  · by_cases hg : tc.groundTruthText.valid = true ∧ tc.groundTruthText.string ≠ ""
    · simp [buildResult, computeMetrics, hg, he]
    · simp [buildResult, computeMetrics, hg]
  · by_cases hg : tc.groundTruthText.valid = true ∧ tc.groundTruthText.string ≠ ""
    · simp [buildResult, computeMetrics, hg, he]
    · simp [buildResult, computeMetrics, hg]

/-- An environment whose single adapter always fails. -/
def envErr : Env := mkEnv [tcCat] [vcMock] errorAdapter

/-- Witness for C6: a failing recognizer call still yields exactly one
persisted row carrying the placeholder text and no metrics. -/
theorem claimC6_witness :
    envErr.getVendorConfig 1 = some vcMock ∧
    envErr.getASRAdapter vcMock = some errorAdapter ∧
    (errorAdapter tcCat.audioFilePath tcCat.languageCode.string vcMock).2.2 =
      some "simulated recognition failure" ∧
    processPair envErr 7 tcCat 1 = [buildResult envErr 7 tcCat vcMock errorAdapter] ∧
    (buildResult envErr 7 tcCat vcMock errorAdapter).recognizedText =
      ⟨"Recognition Error: " ++ "simulated recognition failure", true⟩ ∧
    ("Recognition Error: " ++ "simulated recognition failure") ≠ "" ∧
    (buildResult envErr 7 tcCat vcMock errorAdapter).cer.valid = false ∧
    (buildResult envErr 7 tcCat vcMock errorAdapter).wer.valid = false := by
  have h := claimC6 envErr 7 tcCat 1 vcMock errorAdapter
    "simulated recognition failure" (by decide) rfl rfl (fun _ => rfl)
  exact ⟨by decide, rfl, rfl, h.1, h.2.1, h.2.2.1, h.2.2.2.1, h.2.2.2.2⟩

/-- Claim C7: with ground truth present and recognition successful, a metric
computation that itself reports an error is recorded unset rather than as
its informational 1.0 payload. -/
theorem claimC7 (env : Env) (jobID : ℤ) (tc : ASRTestCase) (vc : VendorConfig)
    (a : ASRAdapterFn)
    (hgt : tc.groundTruthText.valid = true)
    (hne : tc.groundTruthText.string ≠ "")
    (hok : (a tc.audioFilePath tc.languageCode.string vc).2.2 = none) :
    ((CalculateCER tc.groundTruthText.string
        (a tc.audioFilePath tc.languageCode.string vc).1).2.isSome = true →
      (buildResult env jobID tc vc a).cer.valid = false) ∧
    ((CalculateWER tc.groundTruthText.string
        (a tc.audioFilePath tc.languageCode.string vc).1).2.isSome = true →
      (buildResult env jobID tc vc a).wer.valid = false) := by
  constructor
  · intro hc
    cases hx : (CalculateCER tc.groundTruthText.string
        (a tc.audioFilePath tc.languageCode.string vc).1).2 with
    | none => rw [hx] at hc; simp at hc
    | some m => simp [buildResult, computeMetrics, hgt, hne, hok, hx]
  · intro hc
    cases hx : (CalculateWER tc.groundTruthText.string
        (a tc.audioFilePath tc.languageCode.string vc).1).2 with
    | none => rw [hx] at hc; simp at hc
    | some m => simp [buildResult, computeMetrics, hgt, hne, hok, hx]

/-- An environment holding the whitespace-ground-truth test case. -/
def envWS : Env := mkEnv [tcWS] [vcMock] sampleAdapter

/-- Witness for C7: a whitespace-only ground truth makes `CalculateWER`
report an error, and the persisted WER is unset. -/
theorem claimC7_witness :
    tcWS.groundTruthText.valid = true ∧ tcWS.groundTruthText.string ≠ "" ∧
    (sampleAdapter tcWS.audioFilePath tcWS.languageCode.string vcMock).2.2 = none ∧
    (CalculateWER tcWS.groundTruthText.string
        (sampleAdapter tcWS.audioFilePath tcWS.languageCode.string vcMock).1).2.isSome = true ∧
    (buildResult envWS 7 tcWS vcMock sampleAdapter).wer.valid = false := by
  refine ⟨rfl, by decide, rfl, by decide, ?_⟩
  exact (claimC7 envWS 7 tcWS vcMock sampleAdapter rfl (by decide) rfl).2 (by decide)

/-- Claim C8: `GetASRAdapter` switches on the vendor configuration's Name;
every name without a dedicated case falls back to the mock adapter (which
fabricates a non-empty transcript with no error) with a nil error — it
never reports "no adapter found" for an unrecognized name. -/
theorem claimC8 (objectStoreInitialized : Bool) (vc : VendorConfig)
    (h : vc.name ∉ knownVendorNames) :
    GetASRAdapter objectStoreInitialized (some vc) = (some ASRAdapterKind.mock, none) ∧
    (∀ audioFilePath languageCode : String,
      (MockASRAdapterRecognize audioFilePath languageCode vc).2.2 = none ∧
      (MockASRAdapterRecognize audioFilePath languageCode vc).1 ≠ "") := by
  simp only [knownVendorNames, List.mem_cons, List.not_mem_nil, or_false] at h
  push_neg at h
  obtain ⟨h1, h2, h3, h4, h5, h6, h7, h8⟩ := h
  refine ⟨?_, fun audioFilePath languageCode => ⟨?_, ?_⟩⟩
  · simp [GetASRAdapter, h1, h2, h3, h4, h5, h6, h7, h8]
  · simp [MockASRAdapterRecognize, h2]
  · simp only [MockASRAdapterRecognize, if_neg h2]
    exact string_append_ne_empty _ _
      (string_append_data_ne_empty_left _ _
        (string_append_data_ne_empty_left _ _
          (string_append_data_ne_empty_left _ _ (by decide))))

/-- Witness for C8 at the unrecognized vendor name "SomeNewVendor". -/
theorem claimC8_witness :
    vcOther.name ∉ knownVendorNames ∧
    GetASRAdapter true (some vcOther) = (some ASRAdapterKind.mock, none) ∧
    (MockASRAdapterRecognize "a.wav" "en-US" vcOther).2.2 = none ∧
    (MockASRAdapterRecognize "a.wav" "en-US" vcOther).1 ≠ "" := by
  have h := claimC8 true vcOther (by decide)
  exact ⟨by decide, h.1, (h.2 "a.wav" "en-US").1, (h.2 "a.wav" "en-US").2⟩

end AITestPlatform
